import Mathlib

/-!
Verification development for the brainlift-mcp-server repository.

The Python sources are shallowly embedded as pure Lean functions:
  * `src/brainlift_client.py` : the Supabase token manager (token exchange
    cache) and the Brainlift API client's failure mapping;
  * `src/oauth_client.py`     : the OAuth credential store (save / load of the
    Google credential file).
Stateful Python objects become explicit state records threaded through the
functions; the network and the filesystem become explicit environment
parameters; raised exceptions become `Except` errors; `time.time()` becomes a
`now : ℚ` parameter.
-/

/-- Python truthiness of an optional string: `None` and `""` are falsy. -/
def strTruthy : Option String → Bool
  | none => false
  | some s => !s.isEmpty

/-- Python truthiness of an optional float: `None` and `0.0` are falsy.
Time instants are modelled as rationals. -/
def ratTruthy : Option ℚ → Bool
  | none => false
  | some q => decide (q ≠ 0)

/-- Python `s.rstrip("/")`: remove every trailing `/`. -/
def rstripSlash (s : String) : String :=
  ⟨(s.data.reverse.dropWhile (· = '/')).reverse⟩

/-- The JSON body of the Supabase `auth/v1/token` exchange response, reduced to
the three fields `_exchange_google_token_for_supabase` reads:
`data.get("access_token")`, `(data.get("user") or \x7b\x7d).get("id")`, and
`data.get("expires_in")` (kept only when numeric, as in the `isinstance`
check). -/
structure ExchangeData where
  access_token : Option String
  user_id : Option String
  expires_in : Option ℚ
  deriving DecidableEq, Repr

/-- The environment one token-exchange attempt runs in: whether
`oauth_client.get_credentials()` yields a credential, whether the POST and
`raise_for_status()` succeed, and the response body. -/
structure ExchangeEnv where
  credsOk : Bool
  httpOk : Bool
  data : ExchangeData
  deriving DecidableEq, Repr

/-- The errors `_SupabaseTokenManager` raises: the `ValueError` for missing
credentials, a propagated `requests` exception, the `ValueError` for a
response missing `access_token`, and the `ValueError` for a response missing
`user.id`. -/
inductive TMError where
  | credentialsUnavailable
  | requestError
  | missingAccessToken
  | missingUserId
  deriving DecidableEq, Repr

/-- The mutable fields of `_SupabaseTokenManager`:
`_access_token`, `_expires_at`, `_user_id`. -/
structure TMState where
  access_token : Option String
  expires_at : Option ℚ
  user_id : Option String
  deriving DecidableEq, Repr

/-- `_SupabaseTokenManager._exchange_google_token_for_supabase`.
Returns the `(access_token, expires_at)` pair and the updated state.
On every error path the state is returned unchanged; in particular the
`ValueError` for a missing `access_token` is raised before `_user_id` is
assigned, so a malformed response leaves the cache untouched.  On success
`_user_id` is overwritten with the response's `user.id` (possibly `None`),
and `expires_at` is `now + expires_in - 60` when `expires_in` is numeric. -/
def exchange_google_token_for_supabase (env : ExchangeEnv) (now : ℚ)
    (st : TMState) : Except TMError (String × Option ℚ) × TMState :=
  if !env.credsOk then
    (.error .credentialsUnavailable, st)
  else if !env.httpOk then
    (.error .requestError, st)
  else
    match env.data.access_token with
    | none => (.error .missingAccessToken, st)
    | some tok =>
      if tok.isEmpty then
        (.error .missingAccessToken, st)
      else
        let st' := { st with user_id := env.data.user_id }
        let expires_at := env.data.expires_in.map (fun e => now + e - 60)
        (.ok (tok, expires_at), st')

/-- The cache test of `get_token`:
`self._access_token and self._expires_at and now < self._expires_at`
(Python truthiness: an empty token string or a `0.0` expiry fail the test). -/
def cacheHit (st : TMState) (now : ℚ) : Bool :=
  strTruthy st.access_token && ratTruthy st.expires_at &&
    decide (now < st.expires_at.getD 0)

/-- `_SupabaseTokenManager.get_token`.  Returns the token (or error), the
updated state, and the number of exchange calls performed (0 or 1). -/
def get_token (env : ExchangeEnv) (now : ℚ) (st : TMState) :
    Except TMError String × TMState × Nat :=
  if cacheHit st now then
    (.ok (st.access_token.getD ""), st, 0)
  else
    match exchange_google_token_for_supabase env now st with
    | (.error e, st') => (.error e, st', 1)
    | (.ok (tok, expires_at), st') =>
      (.ok tok, { st' with access_token := some tok, expires_at := expires_at }, 1)

/-- `_SupabaseTokenManager.invalidate`: clears `_access_token` and
`_expires_at`.  (`_user_id` is not touched by the source.) -/
def invalidate (st : TMState) : TMState :=
  { st with access_token := none, expires_at := none }

/-- `_SupabaseTokenManager.get_user_id`.  Returns the user id (or error), the
updated state, and the number of exchange calls performed. -/
def get_user_id (env : ExchangeEnv) (now : ℚ) (st : TMState) :
    Except TMError String × TMState × Nat :=
  if strTruthy st.user_id then
    (.ok (st.user_id.getD ""), st, 0)
  else
    match get_token env now st with
    | (.error e, st', n) => (.error e, st', n)
    | (.ok _, st', n) =>
      if strTruthy st'.user_id then
        (.ok (st'.user_id.getD ""), st', n)
      else
        (.error .missingUserId, st', n)

/-- The configuration fields of `OAuthClient.__init__` that identify a client
instance (paths resolved from arguments or environment, and the scope list). -/
structure OAuthClientCfg where
  client_secrets_path : String
  token_path : String
  scopes : List String
  deriving DecidableEq, Repr

/-- The `ValueError` raised by `_SupabaseTokenManager.__init__` when
`SUPABASE_URL` or `SUPABASE_ANON_KEY` is missing. -/
inductive InitError where
  | valueError
  deriving DecidableEq, Repr

/-- A constructed `_SupabaseTokenManager` instance: the fields
`__init__` assigns (`oauth_client`, the rstripped `supabase_url`,
`supabase_anon_key`, and the three cache fields). -/
structure SupabaseTokenManager where
  oauth_client : OAuthClientCfg
  supabase_url : String
  supabase_anon_key : Option String
  access_token : Option String
  expires_at : Option ℚ
  user_id : Option String
  deriving DecidableEq, Repr

/-- `_SupabaseTokenManager.__init__`: `supabase_url` becomes
`(supabase_url or "").rstrip("/")`; a falsy stripped url or a falsy anon key
raises `ValueError`; otherwise the instance starts with an empty cache. -/
def mkSupabaseTokenManager (oauth_client : OAuthClientCfg)
    (supabase_url supabase_anon_key : Option String) :
    Except InitError SupabaseTokenManager :=
  let stripped := rstripSlash (supabase_url.getD "")
  if stripped.isEmpty || !strTruthy supabase_anon_key then
    .error .valueError
  else
    .ok { oauth_client := oauth_client, supabase_url := stripped,
          supabase_anon_key := supabase_anon_key,
          access_token := none, expires_at := none, user_id := none }

/-- The environment variables `_get_supabase_token_manager` reads. -/
structure Environ where
  SUPABASE_URL : Option String
  SUPABASE_ANON_KEY : Option String
  deriving DecidableEq, Repr

/-- `_get_supabase_token_manager`, with the module-level global
`_supabase_token_manager` passed and returned explicitly.  When the global is
already set it is returned as-is (the `oauth_client` argument and the
environment are ignored); when it is `None` a manager is constructed from the
environment variables and stored; if construction raises, the global stays
`None`. -/
def get_supabase_token_manager (g : Option SupabaseTokenManager)
    (oauth_client : OAuthClientCfg) (env : Environ) :
    Except InitError SupabaseTokenManager × Option SupabaseTokenManager :=
  match g with
  | some m => (.ok m, some m)
  | none =>
    match mkSupabaseTokenManager oauth_client env.SUPABASE_URL
        env.SUPABASE_ANON_KEY with
    | .ok m => (.ok m, some m)
    | .error e => (.error e, none)

/-- The outcome of one `requests.get` call as seen by the `except` clauses of
`BrainliftClient`: a successful JSON body, an `HTTPError` from
`raise_for_status` (carrying `e.response.status_code`, or `None` when the
exception has no response), a `ConnectionError`, a `Timeout`, or another
`RequestException`. -/
inductive HttpOutcome where
  | success (body : String)
  | httpError (status : Option Nat)
  | connectionError
  | timeout
  | otherRequestException
  deriving DecidableEq, Repr

/-- The exception messages raised by the `except` clauses of the three read
operations, one constructor per `raise Exception(f"...")` template. -/
inductive ApiError where
  | notFound (id : String)
  | forbidden (id : String)
  | httpErrorGeneric (detail : String)
  | unreachable (base_url : String)
  | timedOut
  | requestFailed (detail : String)
  | unexpected (detail : String)
  deriving DecidableEq, Repr

/-- Whether an `Except` result is a `NotFound` error. -/
def isNotFoundResult : Except ApiError String → Bool
  | .error (.notFound _) => true
  | _ => false

/-- Whether an `Except` result is a `Forbidden` error. -/
def isForbiddenResult : Except ApiError String → Bool
  | .error (.forbidden _) => true
  | _ => false

/-- The `try/except` ladder of `BrainliftClient.get_brainlifts` applied to the
HTTP outcome (after a successful `_get_auth_context`): every `HTTPError`,
regardless of status, maps to the single generic
`"HTTP error fetching BrainLifts"` message — there is no 404/403 case. -/
def get_brainlifts_handle (base_url : String) (o : HttpOutcome) :
    Except ApiError String :=
  match o with
  | .success body => .ok body
  | .httpError _ => .error (.httpErrorGeneric "HTTP error fetching BrainLifts")
  | .connectionError => .error (.unreachable base_url)
  | .timeout => .error .timedOut
  | .otherRequestException => .error (.requestFailed "Error fetching BrainLifts")

/-- The `try/except` ladder of `BrainliftClient.get_brainlift`: status 404 maps
to the not-found message carrying `brainlift_id`, 403 to the forbidden
message carrying `brainlift_id`, any other `HTTPError` to a generic message. -/
def get_brainlift_handle (brainlift_id base_url : String) (o : HttpOutcome) :
    Except ApiError String :=
  match o with
  | .success body => .ok body
  | .httpError (some 404) => .error (.notFound brainlift_id)
  | .httpError (some 403) => .error (.forbidden brainlift_id)
  | .httpError _ =>
    .error (.httpErrorGeneric ("HTTP error fetching BrainLift " ++ brainlift_id))
  | .connectionError => .error (.unreachable base_url)
  | .timeout => .error .timedOut
  | .otherRequestException =>
    .error (.requestFailed ("Error fetching BrainLift " ++ brainlift_id))

/-- The `try/except` ladder of `BrainliftClient.get_nodes`: same shape as
`get_brainlift_handle`, with the nodes-specific messages. -/
def get_nodes_handle (brainlift_id base_url : String) (o : HttpOutcome) :
    Except ApiError String :=
  match o with
  | .success body => .ok body
  | .httpError (some 404) => .error (.notFound brainlift_id)
  | .httpError (some 403) => .error (.forbidden brainlift_id)
  | .httpError _ =>
    .error (.httpErrorGeneric ("HTTP error fetching nodes for BrainLift " ++ brainlift_id))
  | .connectionError => .error (.unreachable base_url)
  | .timeout => .error .timedOut
  | .otherRequestException =>
    .error (.requestFailed ("Error fetching nodes for BrainLift " ++ brainlift_id))

/-- Modelled from the spec: the demo/offline configuration mode of the API
Access Layer.  The revision of `brainlift_client.py` under `src/` does not
contain this mode (the repository holds superseded revisions of the client
outside `src/`, and the spec's design target includes it).  Per the spec the
canned payload is a fixed value; its concrete content is unspecified. -/
def demoCannedBrainlifts : String := "demo-brainlifts-canned-payload"

/-- One `list_items()` run, instrumented: the result plus the number of
header/auth-context acquisitions and of network calls performed. -/
structure ListItemsTrace where
  result : Except ApiError String
  headerAcquisitions : Nat
  networkCalls : Nat
  deriving Repr

/-- Modelled from the spec: `list_items()` with the demo/offline mode.  The
mode is checked first, before any header acquisition, and returns the fixed
canned payload with no credential lookup and no network call; otherwise the
operation proceeds as `BrainliftClient.get_brainlifts` does in `src/`:
acquire the auth context (failing with the wrapped unexpected-error message
when no credentials are configured), then issue the HTTP call and map its
outcome through the `except` ladder. -/
def list_items_demo (demoMode : Bool) (authAvailable : Bool)
    (base_url : String) (o : HttpOutcome) : ListItemsTrace :=
  if demoMode then
    { result := .ok demoCannedBrainlifts, headerAcquisitions := 0,
      networkCalls := 0 }
  else if !authAvailable then
    { result := .error (.unexpected "Unexpected error"),
      headerAcquisitions := 1, networkCalls := 0 }
  else
    { result := get_brainlifts_handle base_url o,
      headerAcquisitions := 1, networkCalls := 1 }

/-- The fields of a `google.oauth2.credentials.Credentials` object that
`oauth_client.py` reads or writes: the bearer `token`, `refresh_token`,
`id_token`, and the client identification (`client_id`, `client_secret`).
Fields not touched by the repository (token_uri, scopes, expiry) are outside
the model. -/
structure GCredentials where
  token : Option String
  refresh_token : Option String
  id_token : Option String
  client_id : Option String
  client_secret : Option String
  deriving DecidableEq, Repr

/-- One JSON record of the token file.  Each field is
`Option (Option String)`: the outer level is key presence, the inner level the
(nullable) value. -/
structure StoredRecord where
  token : Option (Option String)
  refresh_token : Option (Option String)
  id_token : Option (Option String)
  client_id : Option (Option String)
  client_secret : Option (Option String)
  record_type : Option (Option String)
  deriving DecidableEq, Repr

/-- Models `Credentials.to_json()` of the Google auth library as used by
`_save_credentials`: it serializes `token`, `refresh_token`, `client_id` and
`client_secret`, omitting keys whose value is `None` (hence the source's
re-adding of a null `refresh_token`), and it does not emit `id_token` (hence
the source's explicit `token_data["id_token"] = ...`). -/
def credsToJson (c : GCredentials) : StoredRecord :=
  { token := c.token.map some,
    refresh_token := c.refresh_token.map some,
    id_token := none,
    client_id := c.client_id.map some,
    client_secret := c.client_secret.map some,
    record_type := none }

/-- `OAuthClient._save_credentials`: the record written to the token file.
Starting from `to_json`, a missing `refresh_token` key is re-added with the
credential's (possibly null) value, `id_token` is written explicitly (null
rather than omitted), and `type` is set to `"authorized_user"`. -/
def save_credentials (c : GCredentials) : StoredRecord :=
  let d := credsToJson c
  let d := if d.refresh_token.isNone then
             { d with refresh_token := some c.refresh_token }
           else d
  let d := { d with id_token := some c.id_token }
  { d with record_type := some (some "authorized_user") }

/-- Models `Credentials.from_authorized_user_info` of the Google auth library
as used by `get_credentials`: it requires the keys `refresh_token`,
`client_id` and `client_secret` to be present (else it raises `ValueError`,
here `none`), restores `token` and `refresh_token` from the record, and does
not restore `id_token` even when present (the quirk noted in the source). -/
def from_authorized_user_info (rec : StoredRecord) : Option GCredentials :=
  if rec.refresh_token.isSome && rec.client_id.isSome &&
      rec.client_secret.isSome then
    some { token := rec.token.join,
           refresh_token := rec.refresh_token.join,
           id_token := none,
           client_id := rec.client_id.join,
           client_secret := rec.client_secret.join }
  else
    none

/-- The content of the token file: `none` when the file does not exist,
`some none` when it exists but `json.load` fails, `some (some rec)` when it
parses to `rec`. -/
abbrev TokenFile := Option (Option StoredRecord)

/-- The credential-loading section of `OAuthClient.get_credentials`
(the `try` block guarded by `os.path.exists`): parse the file, reconstruct
via `from_authorized_user_info`, and reattach a truthy saved `id_token` to the
reconstructed credential; every failure is swallowed and yields `None`. -/
def load_credentials (file : TokenFile) : Option GCredentials :=
  match file with
  | none => none
  | some none => none
  | some (some rec) =>
    match from_authorized_user_info rec with
    | none => none
    | some c =>
      match rec.id_token.join with
      | some it => if it.isEmpty then some c else some { c with id_token := some it }
      | none => some c

/-- A credential object together with the clock-dependent attributes the
Google library computes for it (`credentials.expired`, `credentials.valid`),
which `get_credentials` branches on. -/
structure LiveCred where
  cred : GCredentials
  expired : Bool
  valid : Bool
  deriving DecidableEq, Repr

/-- The environment one `get_credentials` run sees: the token file, the
library-computed `expired`/`valid` attributes of the loaded credential, the
outcome of `credentials.refresh(Request())` (`Except.error` models a raised
exception), whether the client-secrets file exists, and the outcome of the
interactive flow. -/
structure OAuthEnv where
  file : TokenFile
  loadedExpired : Bool
  loadedValid : Bool
  refreshResult : Except Unit LiveCred
  secretsExists : Bool
  flowResult : Except Unit LiveCred

/-- Step 1 of `get_credentials`: the loaded credential with its attributes. -/
def loadLive (env : OAuthEnv) : Option LiveCred :=
  match load_credentials env.file with
  | none => none
  | some c => some ⟨c, env.loadedExpired, env.loadedValid⟩

/-- `OAuthClient._run_oauth_flow`: returns `None` when the client-secrets
file is missing, and swallows any exception of the flow itself into `None`;
it never raises. -/
def run_oauth_flow (env : OAuthEnv) : Except Unit (Option LiveCred) :=
  if !env.secretsExists then
    .ok none
  else
    match env.flowResult with
    | .ok c => .ok (some c)
    | .error _ => .ok none

/-- `OAuthClient.get_credentials`: load (failures swallowed), refresh when
expired with a truthy refresh token (failures swallowed, credential
discarded), and fall through to the interactive flow when no valid credential
remains.  `Except.error` in the result type marks an exception escaping the
method; no branch produces one. -/
def get_credentials (env : OAuthEnv) : Except Unit (Option LiveCred) :=
  let c0 := loadLive env
  let c1 : Option LiveCred :=
    match c0 with
    | some lc =>
      if lc.expired && strTruthy lc.cred.refresh_token then
        match env.refreshResult with
        | .ok rc => some rc
        | .error _ => none
      else
        c0
    | none => none
  match c1 with
  | some lc => if lc.valid then .ok (some lc) else run_oauth_flow env
  | none => run_oauth_flow env

example :
    get_token ⟨true, true, ⟨some "tok1", some "u1", none⟩⟩ 5
      ⟨some "tok1", none, some "u1"⟩ =
    (.ok "tok1", ⟨some "tok1", none, some "u1"⟩, 1) := rfl

example :
    get_token ⟨true, true, ⟨some "tok2", some "u1", some 3600⟩⟩ 0
      ⟨none, none, none⟩ =
    (.ok "tok2", ⟨some "tok2", some 3540, some "u1"⟩, 1) := by
  norm_num [get_token, exchange_google_token_for_supabase, cacheHit, strTruthy,
    ratTruthy]
  rfl

example :
    get_token ⟨true, true, ⟨some "tok2", some "u1", some 3600⟩⟩ 100
      ⟨some "tok1", some 3540, some "u1"⟩ =
    (.ok "tok1", ⟨some "tok1", some 3540, some "u1"⟩, 0) := rfl

/-! ## Helper lemmas -/

theorem strTruthy_some_of_ne (s : String) (h : s ≠ "") :
    strTruthy (some s) = true := by
  simp only [strTruthy, Bool.not_eq_true']
  rw [Bool.eq_false_iff]
  intro hc
  exact h ((String.isEmpty_iff s).mp hc)

theorem isEmpty_false_of_ne (s : String) (h : s ≠ "") : s.isEmpty = false := by
  rw [Bool.eq_false_iff]
  intro hc
  exact h ((String.isEmpty_iff s).mp hc)

theorem cacheHit_of_expiry_none (st : TMState) (now : ℚ)
    (h : st.expires_at = none) : cacheHit st now = false := by
  simp [cacheHit, ratTruthy, h]

theorem get_token_exchanges_of_miss (env : ExchangeEnv) (now : ℚ)
    (st : TMState) (h : cacheHit st now = false) :
    (get_token env now st).2.2 = 1 := by
  simp only [get_token, h, Bool.false_eq_true, if_false]
  rcases hE : exchange_google_token_for_supabase env now st with ⟨res, st'⟩
  cases res with
  | error e => simp
  | ok v => rcases v with ⟨tok, exp⟩; simp

/-! ## Claim theorems -/

/-- C1 counterexample.  A cache state produced by an exchange whose response
carried no `expires_in` (first conjunct: the state after `get_token` at `t=0`
has no expiry) does NOT make later `get_token` calls serve the cached token
without an exchange: the second conjunct shows the very next `get_token` call
(at `t=5`, with no intervening `invalidate()`) performs one exchange call,
because the cache test requires a truthy `_expires_at`. -/
theorem c1_counterexample :
    (get_token ⟨true, true, ⟨some "tok1", some "u1", none⟩⟩ 0
        ⟨none, none, none⟩).2.1 = ⟨some "tok1", none, some "u1"⟩ ∧
    (get_token ⟨true, true, ⟨some "tok1", some "u1", none⟩⟩ 5
        ⟨some "tok1", none, some "u1"⟩).2.2 = 1 :=
  ⟨rfl, rfl⟩

/-- C1 amended.  If the exchange response carries no `expires_in`, the token is
cached with no expiry instant, and the cached entry is treated as always
stale: every subsequent `get_token()` call performs a new exchange (one
exchange call each time), with no `invalidate()` needed. -/
theorem c1_no_expiry_always_exchanges (env : ExchangeEnv) (now : ℚ)
    (st : TMState) (hC : env.credsOk = true) (hH : env.httpOk = true)
    (hE : env.data.expires_in = none)
    (hT : strTruthy env.data.access_token = true)
    (hM : cacheHit st now = false) :
    ((get_token env now st).2.1).expires_at = none ∧
    ∀ (env' : ExchangeEnv) (now' : ℚ),
      (get_token env' now' ((get_token env now st).2.1)).2.2 = 1 := by
  have hstate : ((get_token env now st).2.1).expires_at = none := by
    rcases henv : env.data.access_token with _ | tok
    · rw [henv] at hT; simp [strTruthy] at hT
    · rw [henv] at hT
      simp only [strTruthy, Bool.not_eq_true'] at hT
      simp [get_token, hM, exchange_google_token_for_supabase, hC, hH, henv,
        hT, hE]
  refine ⟨hstate, fun env' now' => ?_⟩
  exact get_token_exchanges_of_miss env' now' _
    (cacheHit_of_expiry_none _ now' hstate)

/-- C3 counterexample.  `invalidate()` does not clear `_user_id`: starting
from a cache holding token `"tok1"`, expiry `100` and subject identity
`"u1"`, an `invalidate()` followed by `get_user_id()` returns the identity
`"u1"` cached before the invalidate, with zero exchange calls — even though
the environment's exchange would now report subject `"u2"`. -/
theorem c3_counterexample :
    get_user_id ⟨true, true, ⟨some "tok2", some "u2", none⟩⟩ 0
        (invalidate ⟨some "tok1", some 100, some "u1"⟩) =
    (.ok "u1", ⟨none, none, some "u1"⟩, 0) :=
  rfl

/-- C3 amended.  `invalidate()` clears the cached token and the cached expiry
but not the cached subject identity; an `invalidate()` followed immediately
by `get_token()` still always performs an exchange call, but a following
`get_user_id()` can return the subject identity cached before the
invalidate. -/
theorem c3_invalidate_clears_token_only (st : TMState) (env : ExchangeEnv)
    (now : ℚ) :
    (invalidate st).access_token = none ∧
    (invalidate st).expires_at = none ∧
    (invalidate st).user_id = st.user_id ∧
    (get_token env now (invalidate st)).2.2 = 1 :=
  ⟨rfl, rfl, rfl,
    get_token_exchanges_of_miss env now _ (cacheHit_of_expiry_none _ now rfl)⟩

/-- C1 witness: the amended theorem applied at a concrete run (exchange
response `tok1`/`u1` with no `expires_in`, first call at `t=0`, second call
at `t=5`). -/
theorem c1_witness :
    strTruthy (ExchangeEnv.mk true true
        ⟨some "tok1", some "u1", none⟩).data.access_token = true ∧
    cacheHit ⟨none, none, none⟩ 0 = false ∧
    ((get_token ⟨true, true, ⟨some "tok1", some "u1", none⟩⟩ 0
        ⟨none, none, none⟩).2.1).expires_at = none ∧
    (get_token ⟨true, true, ⟨some "tok1", some "u1", none⟩⟩ 5
      ((get_token ⟨true, true, ⟨some "tok1", some "u1", none⟩⟩ 0
        ⟨none, none, none⟩).2.1)).2.2 = 1 :=
  ⟨rfl, rfl,
    (c1_no_expiry_always_exchanges ⟨true, true, ⟨some "tok1", some "u1", none⟩⟩
      0 ⟨none, none, none⟩ rfl rfl rfl rfl rfl).1,
    (c1_no_expiry_always_exchanges ⟨true, true, ⟨some "tok1", some "u1", none⟩⟩
      0 ⟨none, none, none⟩ rfl rfl rfl rfl rfl).2
      ⟨true, true, ⟨some "tok1", some "u1", none⟩⟩ 5⟩

/-- C4 confirmed.  For a cached ScopedToken (nonempty token, known
skew-adjusted expiry `exp`) and a non-negative clock: a `get_token()` call
strictly before `exp` returns the identical cached token, leaves the state
unchanged, and performs zero exchange calls; a call at or after `exp` (when
the exchange environment yields a truthy token) performs exactly one exchange
call and returns the newly exchanged token, caching it with the new expiry
and subject. -/
theorem c4_get_token_expiry (env : ExchangeEnv) (st : TMState) (tok : String)
    (exp now : ℚ) (hTok : st.access_token = some tok) (hNe : tok ≠ "")
    (hExp : st.expires_at = some exp) (hNow : 0 ≤ now) :
    (now < exp → get_token env now st = (.ok tok, st, 0)) ∧
    (exp ≤ now → env.credsOk = true → env.httpOk = true →
      ∀ tok', env.data.access_token = some tok' → tok' ≠ "" →
        get_token env now st =
          (.ok tok',
           ⟨some tok', env.data.expires_in.map (fun e => now + e - 60),
            env.data.user_id⟩, 1)) := by
  constructor
  · intro hLt
    have hPos : exp ≠ 0 := by
      have : 0 < exp := lt_of_le_of_lt hNow hLt
      exact ne_of_gt this
    have hHit : cacheHit st now = true := by
      simp [cacheHit, hTok, hExp, strTruthy, ratTruthy,
        isEmpty_false_of_ne tok hNe, hPos, hLt]
    simp [get_token, hHit, hTok]
  · intro hGe hC hH tok' hTok' hNe'
    have hMiss : cacheHit st now = false := by
      simp [cacheHit, hExp, not_lt_of_le hGe]
    simp [get_token, hMiss, exchange_google_token_for_supabase, hC, hH, hTok',
      isEmpty_false_of_ne tok' hNe']

/-- C4 witness: the theorem applied at the cached state
`(token "a", expiry 10)` with clock `3 < 10` (cache-hit conjunct effective)
against an exchange environment that would return `"b"`. -/
theorem c4_witness :
    ((⟨some "a", some 10, some "u0"⟩ : TMState).access_token = some "a" ∧
     "a" ≠ "" ∧
     (⟨some "a", some 10, some "u0"⟩ : TMState).expires_at = some 10 ∧
     (0 : ℚ) ≤ 3) ∧
    (((3 : ℚ) < 10 →
       get_token ⟨true, true, ⟨some "b", some "u", none⟩⟩ 3
           ⟨some "a", some 10, some "u0"⟩ =
         (.ok "a", ⟨some "a", some 10, some "u0"⟩, 0)) ∧
     ((10 : ℚ) ≤ 3 →
       (⟨true, true, ⟨some "b", some "u", none⟩⟩ : ExchangeEnv).credsOk = true →
       (⟨true, true, ⟨some "b", some "u", none⟩⟩ : ExchangeEnv).httpOk = true →
       ∀ tok',
         (⟨true, true, ⟨some "b", some "u", none⟩⟩ :
             ExchangeEnv).data.access_token = some tok' → tok' ≠ "" →
         get_token ⟨true, true, ⟨some "b", some "u", none⟩⟩ 3
             ⟨some "a", some 10, some "u0"⟩ =
           (.ok tok',
            ⟨some tok',
             (⟨true, true, ⟨some "b", some "u", none⟩⟩ :
                 ExchangeEnv).data.expires_in.map (fun e => 3 + e - 60),
             (⟨true, true, ⟨some "b", some "u", none⟩⟩ :
                 ExchangeEnv).data.user_id⟩, 1))) :=
  ⟨⟨rfl, by decide, rfl, by decide⟩,
   c4_get_token_expiry ⟨true, true, ⟨some "b", some "u", none⟩⟩
     ⟨some "a", some 10, some "u0"⟩ "a" 10 3 rfl (by decide) rfl (by decide)⟩

/-- C6 confirmed.  When `get_token()` misses the cache and the exchange
response lacks a truthy `access_token` (absent or empty), the call fails with
the missing-access-token `ValueError` (the spec's `ExchangeFailed`) and the
cache state — token, expiry and subject identity — is returned entirely
unchanged; in particular an empty cache stays empty. -/
theorem c6_missing_access_token_leaves_cache (env : ExchangeEnv) (now : ℚ)
    (st : TMState) (hM : cacheHit st now = false) (hC : env.credsOk = true)
    (hH : env.httpOk = true) (hT : strTruthy env.data.access_token = false) :
    get_token env now st = (.error .missingAccessToken, st, 1) := by
  rcases henv : env.data.access_token with _ | tok
  · simp [get_token, hM, exchange_google_token_for_supabase, hC, hH, henv]
  · rw [henv] at hT
    simp only [strTruthy, Bool.not_eq_false'] at hT
    simp [get_token, hM, exchange_google_token_for_supabase, hC, hH, henv, hT]

/-- C6 witness: the theorem applied to an empty cache and an exchange
response with no `access_token` field. -/
theorem c6_witness :
    cacheHit ⟨none, none, none⟩ 7 = false ∧
    strTruthy (ExchangeEnv.mk true true ⟨none, some "u1", some 3600⟩).data.access_token = false ∧
    get_token ⟨true, true, ⟨none, some "u1", some 3600⟩⟩ 7 ⟨none, none, none⟩ =
      (.error .missingAccessToken, ⟨none, none, none⟩, 1) :=
  ⟨rfl, rfl,
   c6_missing_access_token_leaves_cache ⟨true, true, ⟨none, some "u1", some 3600⟩⟩
     7 ⟨none, none, none⟩ rfl rfl rfl rfl⟩

/-- C2 confirmed (against the spec-modelled demo mode, which is absent from
the revision under `src/`).  With demo/offline mode enabled, `list_items()`
returns the fixed canned payload with zero header acquisitions and zero
network calls, for every credential configuration (including none) and every
would-be HTTP outcome. -/
theorem c2_demo_mode_list_items (authAvailable : Bool) (base_url : String)
    (o : HttpOutcome) :
    list_items_demo true authAvailable base_url o =
      { result := .ok demoCannedBrainlifts, headerAcquisitions := 0,
        networkCalls := 0 } :=
  rfl

/-- C5 counterexample.  `list_items` (`get_brainlifts`) does not map HTTP 404
to a `NotFound` error carrying an id, nor HTTP 403 to a `Forbidden` error: it
maps every `HTTPError`, 404 and 403 included, to the single generic
`"HTTP error fetching BrainLifts"` message. -/
theorem c5_counterexample :
    get_brainlifts_handle "https://api.example" (.httpError (some 404)) =
      .error (.httpErrorGeneric "HTTP error fetching BrainLifts") ∧
    isNotFoundResult
      (get_brainlifts_handle "https://api.example" (.httpError (some 404))) =
      false ∧
    isForbiddenResult
      (get_brainlifts_handle "https://api.example" (.httpError (some 403))) =
      false :=
  ⟨rfl, rfl, rfl⟩

/-- C5 amended.  The 404 → `NotFound(id)` / 403 → `Forbidden(id)` failure
mapping is uniform across the two per-item read operations `get_item`
(`get_brainlift`) and `get_item_children` (`get_nodes`) only; `list_items`
(`get_brainlifts`) maps every HTTP error status, 404 and 403 included, to a
generic HTTP-error message that is neither `NotFound` nor `Forbidden`. -/
theorem c5_failure_mapping (id base : String) (s : Option Nat) :
    get_brainlift_handle id base (.httpError (some 404)) =
      .error (.notFound id) ∧
    get_brainlift_handle id base (.httpError (some 403)) =
      .error (.forbidden id) ∧
    get_nodes_handle id base (.httpError (some 404)) =
      .error (.notFound id) ∧
    get_nodes_handle id base (.httpError (some 403)) =
      .error (.forbidden id) ∧
    get_brainlifts_handle base (.httpError s) =
      .error (.httpErrorGeneric "HTTP error fetching BrainLifts") ∧
    isNotFoundResult (get_brainlifts_handle base (.httpError s)) = false ∧
    isForbiddenResult (get_brainlifts_handle base (.httpError s)) = false :=
  ⟨rfl, rfl, rfl, rfl, rfl, rfl, rfl⟩

/-- C9 confirmed.  The token-manager accessor is a write-once singleton: when
the global is `None`, the first call constructs the manager from the
environment variables and stores it; any later call returns that identical
instance while ignoring both its `oauth_client` argument and the (possibly
changed) environment, and the returned manager stays bound to the
`oauth_client` of the first call. -/
theorem c9_singleton_accessor (oc oc' : OAuthClientCfg) (env env' : Environ)
    (m : SupabaseTokenManager)
    (h : mkSupabaseTokenManager oc env.SUPABASE_URL env.SUPABASE_ANON_KEY =
      .ok m) :
    get_supabase_token_manager none oc env = (.ok m, some m) ∧
    get_supabase_token_manager (some m) oc' env' = (.ok m, some m) ∧
    m.oauth_client = oc := by
  refine ⟨?_, rfl, ?_⟩
  · simp [get_supabase_token_manager, h]
  · simp only [mkSupabaseTokenManager] at h
    split at h
    · exact absurd h (by simp)
    · cases h
      rfl

/-- C9 witness: the accessor run with the global unset, then re-run with a
different `OAuthClient` and a different environment. -/
theorem c9_witness :
    mkSupabaseTokenManager ⟨"cs.json", "tok.json", ["openid"]⟩
        (some "https://sb.example/") (some "anon-key") =
      .ok ⟨⟨"cs.json", "tok.json", ["openid"]⟩, "https://sb.example",
        some "anon-key", none, none, none⟩ ∧
    get_supabase_token_manager none ⟨"cs.json", "tok.json", ["openid"]⟩
        ⟨some "https://sb.example/", some "anon-key"⟩ =
      (.ok ⟨⟨"cs.json", "tok.json", ["openid"]⟩, "https://sb.example",
        some "anon-key", none, none, none⟩,
       some ⟨⟨"cs.json", "tok.json", ["openid"]⟩, "https://sb.example",
        some "anon-key", none, none, none⟩) ∧
    get_supabase_token_manager
        (some ⟨⟨"cs.json", "tok.json", ["openid"]⟩, "https://sb.example",
          some "anon-key", none, none, none⟩)
        ⟨"other.json", "other-tok.json", []⟩ ⟨none, none⟩ =
      (.ok ⟨⟨"cs.json", "tok.json", ["openid"]⟩, "https://sb.example",
        some "anon-key", none, none, none⟩,
       some ⟨⟨"cs.json", "tok.json", ["openid"]⟩, "https://sb.example",
        some "anon-key", none, none, none⟩) ∧
    (⟨⟨"cs.json", "tok.json", ["openid"]⟩, "https://sb.example",
      some "anon-key", none, none, none⟩ :
        SupabaseTokenManager).oauth_client =
      ⟨"cs.json", "tok.json", ["openid"]⟩ :=
  ⟨rfl,
   (c9_singleton_accessor ⟨"cs.json", "tok.json", ["openid"]⟩
     ⟨"other.json", "other-tok.json", []⟩
     ⟨some "https://sb.example/", some "anon-key"⟩ ⟨none, none⟩ _ rfl).1,
   (c9_singleton_accessor ⟨"cs.json", "tok.json", ["openid"]⟩
     ⟨"other.json", "other-tok.json", []⟩
     ⟨some "https://sb.example/", some "anon-key"⟩ ⟨none, none⟩ _ rfl).2.1,
   (c9_singleton_accessor ⟨"cs.json", "tok.json", ["openid"]⟩
     ⟨"other.json", "other-tok.json", []⟩
     ⟨some "https://sb.example/", some "anon-key"⟩ ⟨none, none⟩ _ rfl).2.2⟩

/-- C10 counterexample.  With both configuration values present — a nonempty
base URL and a present-but-empty API key — the constructor still raises
`ValueError` (the Python truthiness test rejects `""`), so no manager with an
empty cache is constructed, contradicting the claim's "when both are
present" clause. -/
theorem c10_counterexample :
    mkSupabaseTokenManager ⟨"cs.json", "tok.json", []⟩
        (some "https://sb.example") (some "") = .error .valueError :=
  rfl

/-- C10 amended.  The constructor raises `ValueError` exactly when the base
URL is absent or empty after trailing-slash stripping, or the API key is
absent or empty; when the stripped URL is nonempty and the key is nonempty,
the constructed manager starts with an empty cache (no token, no expiry, no
subject identity) and stores the base URL with its trailing slashes
removed. -/
theorem c10_init_validation (oc : OAuthClientCfg) (url key : Option String) :
    ((rstripSlash (url.getD "")).isEmpty = true ∨ strTruthy key = false →
      mkSupabaseTokenManager oc url key = .error .valueError) ∧
    ((rstripSlash (url.getD "")).isEmpty = false → strTruthy key = true →
      mkSupabaseTokenManager oc url key =
        .ok ⟨oc, rstripSlash (url.getD ""), key, none, none, none⟩) := by
  constructor
  · intro h
    rcases h with h | h <;> simp [mkSupabaseTokenManager, h]
  · intro h1 h2
    simp [mkSupabaseTokenManager, h1, h2]

/-- C10 witness: the amended theorem applied with an absent URL (error case)
and with a slash-terminated URL plus nonempty key (success case). -/
theorem c10_witness :
    mkSupabaseTokenManager ⟨"cs.json", "tok.json", []⟩ none (some "k") =
      .error .valueError ∧
    (rstripSlash ((some "https://sb.example///").getD "")).isEmpty = false ∧
    strTruthy (some "k") = true ∧
    mkSupabaseTokenManager ⟨"cs.json", "tok.json", []⟩
        (some "https://sb.example///") (some "k") =
      .ok ⟨⟨"cs.json", "tok.json", []⟩, "https://sb.example", some "k",
        none, none, none⟩ :=
  ⟨(c10_init_validation ⟨"cs.json", "tok.json", []⟩ none (some "k")).1
     (Or.inl rfl),
   rfl, rfl,
   (c10_init_validation ⟨"cs.json", "tok.json", []⟩
     (some "https://sb.example///") (some "k")).2 rfl rfl⟩

/-- `(o.map some).join = o`. -/
theorem join_map_some {α : Type} (o : Option α) : (o.map some).join = o := by
  cases o <;> rfl

/-- C7 confirmed.  For every credential holding client identification (as the
interactive flow and the refresh path always produce) whose identity token is
either null or a nonempty string, `save` followed by `load` reconstructs a
credential with identical bearer token, refresh token and identity token —
including the null refresh-token and null identity-token cases, which the
save path writes explicitly as null rather than omitting. -/
theorem c7_save_load_roundtrip (c : GCredentials)
    (h1 : c.client_id.isSome = true) (h2 : c.client_secret.isSome = true)
    (h3 : ∀ s, c.id_token = some s → s ≠ "") :
    ∃ c', load_credentials (some (some (save_credentials c))) = some c' ∧
      c'.token = c.token ∧ c'.refresh_token = c.refresh_token ∧
      c'.id_token = c.id_token := by
  rcases c with ⟨t, rt, it, ci, cs⟩
  rcases ci with _ | ci
  · exact absurd h1 (by simp)
  rcases cs with _ | cs
  · exact absurd h2 (by simp)
  rcases it with _ | it
  · rcases rt with _ | rt <;>
      exact ⟨_, rfl, join_map_some t, rfl, rfl⟩
  · have hit : it.isEmpty = false := isEmpty_false_of_ne it (h3 it rfl)
    rcases t with _ | t <;> rcases rt with _ | rt
    · refine ⟨⟨none, none, some it, some ci, some cs⟩, ?_, rfl, rfl, rfl⟩
      simp [load_credentials, save_credentials, credsToJson,
        from_authorized_user_info, hit]
    · refine ⟨⟨none, some rt, some it, some ci, some cs⟩, ?_, rfl, rfl, rfl⟩
      simp [load_credentials, save_credentials, credsToJson,
        from_authorized_user_info, hit]
    · refine ⟨⟨some t, none, some it, some ci, some cs⟩, ?_, rfl, rfl, rfl⟩
      simp [load_credentials, save_credentials, credsToJson,
        from_authorized_user_info, hit]
    · refine ⟨⟨some t, some rt, some it, some ci, some cs⟩, ?_, rfl, rfl, rfl⟩
      simp [load_credentials, save_credentials, credsToJson,
        from_authorized_user_info, hit]

/-- C7 witness: the round trip applied to a credential with a bearer token, a
null refresh token, and a nonempty identity token. -/
theorem c7_witness :
    ((⟨some "tok", none, some "idt", some "cid", some "sec"⟩ :
        GCredentials).client_id.isSome = true ∧
     (⟨some "tok", none, some "idt", some "cid", some "sec"⟩ :
        GCredentials).client_secret.isSome = true) ∧
    (∃ c', load_credentials (some (some (save_credentials
        ⟨some "tok", none, some "idt", some "cid", some "sec"⟩))) = some c' ∧
      c'.token = some "tok" ∧ c'.refresh_token = none ∧
      c'.id_token = some "idt") :=
  ⟨⟨rfl, rfl⟩,
   c7_save_load_roundtrip ⟨some "tok", none, some "idt", some "cid", some "sec"⟩
     rfl rfl (fun s h => by cases h; decide)⟩

/-- `_run_oauth_flow` never raises: it returns `ok` for every environment. -/
theorem run_oauth_flow_never_raises (env : OAuthEnv) :
    ∃ v, run_oauth_flow env = .ok v := by
  unfold run_oauth_flow
  by_cases h : env.secretsExists
  · rcases hf : env.flowResult with e | c <;> simp [h, hf]
  · rw [Bool.not_eq_true] at h
    simp [h]

/-- C8 confirmed.  `get_credentials` never raises past its boundary: every
run returns `ok`; a parse failure of the stored credential falls through to
the interactive flow; an expired loaded credential with a refresh token whose
refresh raises is discarded and also falls through to the interactive flow;
and when the interactive flow itself fails — client-secrets file missing, or
the flow raising — the result is `ok none` (absent), not an error. -/
theorem c8_get_credentials_never_raises (env : OAuthEnv) :
    (∃ v, get_credentials env = .ok v) ∧
    (env.file = some none → get_credentials env = run_oauth_flow env) ∧
    (∀ lc, loadLive env = some lc → lc.expired = true →
      strTruthy lc.cred.refresh_token = true →
      env.refreshResult = .error () →
      get_credentials env = run_oauth_flow env) ∧
    (env.secretsExists = false → run_oauth_flow env = .ok none) ∧
    (env.flowResult = .error () → run_oauth_flow env = .ok none) := by
  refine ⟨?_, ?_, ?_, ?_, ?_⟩
  · unfold get_credentials
    rcases h0 : loadLive env with _ | lc
    · simp only [h0]
      exact run_oauth_flow_never_raises env
    · simp only [h0]
      by_cases hr : lc.expired && strTruthy lc.cred.refresh_token
      · simp only [hr, if_true]
        rcases hrr : env.refreshResult with e | rc
        · simp only [hrr]
          exact run_oauth_flow_never_raises env
        · simp only [hrr]
          by_cases hv : rc.valid
          · simp [hv]
          · rw [Bool.not_eq_true] at hv
            simp only [hv, Bool.false_eq_true, if_false]
            exact run_oauth_flow_never_raises env
      · rw [Bool.not_eq_true] at hr
        simp only [hr, Bool.false_eq_true, if_false]
        by_cases hv : lc.valid
        · simp [hv]
        · rw [Bool.not_eq_true] at hv
          simp only [hv, Bool.false_eq_true, if_false]
          exact run_oauth_flow_never_raises env
  · intro h
    unfold get_credentials loadLive
    simp [h, load_credentials]
  · intro lc h0 hexp hrt hrr
    unfold get_credentials
    simp [h0, hexp, hrt, hrr]
  · intro h
    simp [run_oauth_flow, h]
  · intro h
    unfold run_oauth_flow
    by_cases hs : env.secretsExists
    · simp [hs, h]
    · rw [Bool.not_eq_true] at hs
      simp [hs]

/-- C8 witness: a run whose stored-credential file fails to parse, whose
refresh would raise, and whose client-secrets file is missing, returns
`ok none` (and one where a loaded, expired, refreshable credential's refresh
raises, also falling through to the flow). -/
theorem c8_witness :
    get_credentials ⟨some none, false, false, .error (), false, .error ()⟩ =
      run_oauth_flow ⟨some none, false, false, .error (), false, .error ()⟩ ∧
    run_oauth_flow ⟨some none, false, false, .error (), false, .error ()⟩ =
      .ok none ∧
    get_credentials
        ⟨some (some ⟨some (some "t"), some (some "r"), some none,
          some (some "ci"), some (some "cs"), some (some "authorized_user")⟩),
         true, false, .error (), false, .error ()⟩ =
      run_oauth_flow
        ⟨some (some ⟨some (some "t"), some (some "r"), some none,
          some (some "ci"), some (some "cs"), some (some "authorized_user")⟩),
         true, false, .error (), false, .error ()⟩ :=
  ⟨(c8_get_credentials_never_raises
      ⟨some none, false, false, .error (), false, .error ()⟩).2.1 rfl,
   (c8_get_credentials_never_raises
      ⟨some none, false, false, .error (), false, .error ()⟩).2.2.2.1 rfl,
   (c8_get_credentials_never_raises
      ⟨some (some ⟨some (some "t"), some (some "r"), some none,
        some (some "ci"), some (some "cs"), some (some "authorized_user")⟩),
       true, false, .error (), false, .error ()⟩).2.2.1
     ⟨⟨some "t", some "r", none, some "ci", some "cs"⟩, true, false⟩
     rfl rfl rfl rfl⟩
